import Mathlib

/-!
Shallow embedding of the analysis engine of `k8s-resource-analyzer`
(`src/analyzer.go` and the extended analyzer in `src/unnamed/part_001`,
both `package main`).

Modelling conventions, used throughout:

* `time.Time` is an integer instant (`Time := Int`, think nanoseconds since
  some epoch); the Go zero `Time` is modelled as `0`, `t.After u` as `t > u`
  and `t.IsZero` as `t = 0`.  `time.Duration` constants (`24 * time.Hour`,
  `2 * time.Minute`, ...) become the corresponding integer nanosecond counts.
* Kubernetes resource quantities are carried as integers: CPU in millicores
  (`MilliValue`) and memory in bytes (`Value`), exactly the units the Go code
  extracts.  A `nil` `ResourceList` is `none`; a non-nil list is `some` of a
  record whose absent keys are the zero quantity, matching `Cpu()`/`Memory()`
  returning a zero quantity for a missing key.
* Go strings are Lean `String`s; `strings.Contains` / `strings.HasPrefix`
  are re-implemented on the character lists.  `len(s) == 3` is modelled as
  character length (identical for the ASCII namespace names involved).
* The `float64` divisions in `analyzeNodes` are modelled over `ℚ` with the
  IEEE-754 zero-divisor behaviour made explicit (`x/0` is `+Inf` when
  `x > 0`, which exceeds every finite threshold; `0/0` is `NaN` and `x/0`
  is `-Inf` when `x < 0`, both of which fail a `>` comparison).  For a
  nonzero divisor the comparison is taken exactly over `ℚ`; float64
  rounding cannot move it across the threshold for the integer magnitudes
  a cluster snapshot can contain (counts far below 2^40).
* Go's `sort.Slice` is modelled by `goSort`, an insertion sort using the
  same strict `less` comparator.  For the slice lengths exercised by the
  concrete inputs below Go's `sort.Slice` itself runs insertion sort, so
  the model is exact there; in general `sort.Slice` guarantees exactly the
  sortedness and permutation facts proved for `goSort`.
* Go map iteration order is deliberately unspecified at runtime.  Where the
  source iterates over a map (`analyzeNamespaces`), the embedding takes the
  iteration sequence of the keys as an explicit `order` parameter; a run of
  the program corresponds to an `order` that enumerates the map's key set
  exactly once (a permutation of `nsKeys`).
* `analyzePodRestarts`, `analyzeVeleroBackups` call `time.Now()` on entry;
  that clock reading is the explicit `now` parameter of the embedding.
* `fmt.Sprintf` example strings are rebuilt by concatenation; the RFC3339
  and `%.1f` renderings of instants/percentages are modelled by decimal
  `toString` (the rendered text is not load-bearing for any claim).
-/

namespace K8sRA

/-- `time.Time`, as an integer instant; `0` is the Go zero time. -/
abbrev Time := Int

/-- One nanosecond-count hour, `time.Hour`. -/
def nsPerHour : Int := 3600000000000

/-- One nanosecond-count minute, `time.Minute`. -/
def nsPerMinute : Int := 60000000000

/-- `24 * time.Hour`. -/
def hour24 : Int := 24 * nsPerHour

/-- `48 * time.Hour`. -/
def hour48 : Int := 48 * nsPerHour

/-- `7 * 24 * time.Hour`. -/
def day7 : Int := 7 * 24 * nsPerHour

/-- Does the character list `s` start with `pat`? (`strings.HasPrefix`). -/
def charsStartWith : List Char → List Char → Bool
  | [], _ => true
  | _ :: _, [] => false
  | p :: ps, c :: cs => p == c && charsStartWith ps cs

/-- Does the character list contain `pat` as a contiguous run?
(`strings.Contains`). -/
def charsHaveSub (pat : List Char) : List Char → Bool
  | [] => pat.isEmpty
  | c :: cs => charsStartWith pat (c :: cs) || charsHaveSub pat cs

/-- `strings.Contains s pat`. -/
def strContains (s pat : String) : Bool := charsHaveSub pat.data s.data

/-- `strings.HasPrefix s pat`. -/
def strStartsWith (s pat : String) : Bool := charsStartWith pat.data s.data

/-- Insert `a` into `l` (sorted for the strict comparator `lt`), placing it
after every element it is not strictly less-than: the position where Go's
insertion sort leaves a newly scanned element after bubbling it left. -/
def goInsert (lt : α → α → Bool) (a : α) : List α → List α
  | [] => [a]
  | b :: l => if lt a b then a :: b :: l else b :: goInsert lt a l

/-- Left fold of `goInsert` over the input, scanning elements left to
right exactly as Go's insertion sort does. -/
def goSortAux (lt : α → α → Bool) : List α → List α → List α
  | acc, [] => acc
  | acc, x :: xs => goSortAux lt (goInsert lt x acc) xs

/-- Model of `sort.Slice data less`: a stable insertion sort on the strict
comparator `less`. -/
def goSort (lt : α → α → Bool) (l : List α) : List α := goSortAux lt [] l

/-- `sort.Slice` with comparator `less(i, j) = key(data[i]) > key(data[j])`:
sort descending by an integer key. -/
def goSortByKey (key : α → Int) (l : List α) : List α :=
  goSort (fun a b => decide (key b < key a)) l

/-- A CPU/memory pair of quantities: a non-nil `v1.ResourceList`, with CPU in
millicores and memory in bytes; keys absent from the Go map are the zero
quantity. -/
structure Res where
  cpuMilli : Int
  memBytes : Int
deriving DecidableEq

/-- A container spec: name plus `Resources.Requests` / `Resources.Limits`
(`none` is a nil map). -/
structure Container where
  name : String
  requests : Option Res
  limits : Option Res
deriving DecidableEq

/-- A `ContainerStateTerminated`: finish time and reason. -/
structure Terminated where
  finishedAt : Time
  reason : String
deriving DecidableEq

/-- A `v1.ContainerStatus`: restart count plus the two terminated states the
restart analyzer inspects. -/
structure ContainerStatus where
  name : String
  restartCount : Int
  lastTermination : Option Terminated
  stateTerminated : Option Terminated
deriving DecidableEq

/-- A `v1.Pod`, restricted to the fields the analyzers read.  `ns` is
`pod.Namespace` (`namespace` is a Lean keyword); `ownerKinds` lists the
`Kind` of each entry of `OwnerReferences` in order. -/
structure Pod where
  ns : String
  name : String
  nodeName : String
  containers : List Container
  containerStatuses : List ContainerStatus
  startTime : Option Time
  phase : String
  priorityClassName : String
  ownerKinds : List String
deriving DecidableEq

/-- A `v1.Node`: name and the allocatable CPU (millicores) / memory (bytes)
quantities, zero when absent. -/
structure Node where
  name : String
  allocCpuMilli : Int
  allocMemBytes : Int
deriving DecidableEq

/-- A `v1.Event`, restricted to the fields the analyzers read. -/
structure Event where
  typ : String
  reason : String
  message : String
  ns : String
  sourceComponent : String
  sourceHost : String
  involvedKind : String
  involvedName : String
  involvedNs : String
  involvedApiVersion : String
  involvedFieldPath : String
  count : Int
  firstTimestamp : Time
  lastTimestamp : Time
deriving DecidableEq

/-- A `v1.Namespace` (only the name is read). -/
structure NamespaceInfo where
  name : String
deriving DecidableEq

/-- A loosely-typed Velero backup object (`unstructured.Unstructured`) as the
backup analyzer probes it: `hasStatus` is whether `status` is a map;
`startTimestamp`/`completionTimestamp` are `none` when the key is absent or
not a parseable RFC3339 string; `phase` is `""` and `errors`/`warnings` are
`0` when absent. -/
structure BackupObj where
  name : String
  ns : String
  hasStatus : Bool
  startTimestamp : Option Time
  completionTimestamp : Option Time
  phase : String
  errors : Int
  warnings : Int
deriving DecidableEq

/-- Output record `ResourceGap`. -/
structure ResourceGap where
  Namespace : String
  PodName : String
  Container : String
  MissingRequests : Bool
  MissingLimits : Bool
deriving DecidableEq

/-- Output record `NodeIssue`; the four `float64` fields are carried in `ℚ`. -/
structure NodeIssue where
  NodeName : String
  Issue : String
  RequestedCPU : ℚ
  RequestedMemory : ℚ
  AllocatableCPU : ℚ
  AllocatableMemory : ℚ
deriving DecidableEq

/-- Output record `OOMEvent`. -/
structure OOMEvent where
  NodeName : String
  PodName : String
  Namespace : String
  Container : String
  Timestamp : Time
  Reason : String
deriving DecidableEq

/-- Output record `NamespaceAnalysis`. -/
structure NamespaceAnalysis where
  Namespace : String
  TotalPods : Nat
  PodsWithoutRequests : Nat
  PodsWithoutLimits : Nat
  RiskLevel : String
  CriticalPods : List String
  Recommendations : List String
deriving DecidableEq

/-- Output record `CriticalIssue`. -/
structure CriticalIssue where
  Priority : Int
  Title : String
  Description : String
  Impact : String
  Recommendation : String
  Examples : List String
deriving DecidableEq

/-- Output record `PodRestart`. -/
structure PodRestart where
  Namespace : String
  PodName : String
  ContainerName : String
  RestartCount : Int
  LastRestartTime : Time
  Reason : String
deriving DecidableEq

/-- Output aggregate `PodRestartAnalysis` (windows: 24 hours and 7 days). -/
structure PodRestartAnalysis where
  Last24Hours : List PodRestart
  Last7Days : List PodRestart
  TotalPods24h : Nat
  TotalPods7d : Nat
deriving DecidableEq

/-- Output record `VeleroBackup` (`Duration` in nanoseconds). -/
structure VeleroBackup where
  Name : String
  Namespace : String
  Status : String
  StartTime : Time
  CompletionTime : Time
  Duration : Int
  Errors : Int
  Warnings : Int
deriving DecidableEq

/-- Output aggregate `VeleroBackupAnalysis`. -/
structure VeleroBackupAnalysis where
  Last24Hours : List VeleroBackup
  Last48Hours : List VeleroBackup
  TotalBackups24h : Nat
  TotalBackups48h : Nat
  FailedBackups24h : Nat
  FailedBackups48h : Nat
deriving DecidableEq

/-- Output aggregate `RabbitMQAnalysis`. -/
structure RabbitMQAnalysis where
  RabbitMQPods : List String
  HasPriorityClass : Bool
  HasResourceLimits : Bool
  Recommendations : List String
deriving DecidableEq

/-- Output aggregate `JobAnalysis`. -/
structure JobAnalysis where
  ShortJobs : Nat
  TotalJobs : Nat
  ImpactOnStability : String
  Recommendations : List String
deriving DecidableEq

/-- The snapshot handed to `AnalyzeCluster` (`ClusterData`, the fields the
`src/analyzer.go` pipeline reads). -/
structure ClusterData where
  pods : List Pod
  nodes : List Node
  events : List Event
  namespaces : List NamespaceInfo
deriving DecidableEq

/-- The `Analysis` aggregate produced by the `src/analyzer.go` pipeline
(`AIInsights` is left out: the engine never sets it). -/
structure Analysis where
  ClusterHealth : String
  CriticalIssues : List CriticalIssue
  ResourceGaps : List ResourceGap
  NodeIssues : List NodeIssue
  OOMEvents : List OOMEvent
  NamespaceFindings : List NamespaceAnalysis
  RabbitMQFindings : RabbitMQAnalysis
  ShortLivedJobs : JobAnalysis
deriving DecidableEq

/-- Is a `ResourceList` "missing": the map is nil, or both its CPU and its
memory quantity are zero (`analyzeResourceGaps`, the two `if` conditions). -/
def resMissing : Option Res → Bool
  | none => true
  | some r => r.cpuMilli == 0 && r.memBytes == 0

/-- The `ResourceGap` value built for one container of one pod
(`analyzeResourceGaps` loop body). -/
def mkGap (p : Pod) (c : Container) : ResourceGap :=
  { Namespace := p.ns
    PodName := p.name
    Container := c.name
    MissingRequests := resMissing c.requests
    MissingLimits := resMissing c.limits }

/-- Gaps emitted for one pod: each container whose gap record has at least
one flag set. -/
def gapsForPod (p : Pod) : List ResourceGap :=
  p.containers.filterMap fun c =>
    if (mkGap p c).MissingRequests || (mkGap p c).MissingLimits then some (mkGap p c) else none

/-- `analyzeResourceGaps`: the per-pod, per-container gap scan. -/
def analyzeResourceGaps (pods : List Pod) : List ResourceGap :=
  pods.flatMap gapsForPod

/-- CPU request of one container in millicores; a nil request map contributes
zero (`Requests.Cpu().MilliValue()` on a nil map is 0). -/
def containerReqCpu (c : Container) : Int := (c.requests.map Res.cpuMilli).getD 0

/-- Memory request of one container in bytes. -/
def containerReqMem (c : Container) : Int := (c.requests.map Res.memBytes).getD 0

/-- Sum of a list of integers, folded left like the Go accumulation loop. -/
def sumInt (l : List Int) : Int := l.foldl (· + ·) 0

/-- Total CPU (millicores) requested by containers of pods scheduled on the
named node (`analyzeNodes` inner loops). -/
def requestedCpuOn (nodeName : String) (pods : List Pod) : Int :=
  sumInt (((pods.filter fun p => p.nodeName == nodeName).flatMap Pod.containers).map containerReqCpu)

/-- Total memory (bytes) requested by containers of pods scheduled on the
named node. -/
def requestedMemOn (nodeName : String) (pods : List Pod) : Int :=
  sumInt (((pods.filter fun p => p.nodeName == nodeName).flatMap Pod.containers).map containerReqMem)

/-- The float64 test `req/alloc*100 > 80` of `analyzeNodes`, encoded in
exact integer arithmetic: for a positive divisor the test is
`80*alloc < 100*req` (the exact-real content of the comparison, see
`ratioExceeds80_pos_rat`), for a zero divisor the IEEE-754 quotient is
`+Inf` (exceeds 80) exactly when `req > 0` and `NaN` or `-Inf` (fails the
`>` test) otherwise, and for a negative divisor the inequality flips with
the sign. -/
def ratioExceeds80 (req alloc : Int) : Bool :=
  if 0 < alloc then decide (80 * alloc < 100 * req)
  else if alloc = 0 then decide (0 < req)
  else decide (100 * req < 80 * alloc)

/-- The `NodeIssue` value built by `analyzeNodes` for one node, one violated
dimension: requested/allocatable CPU are rescaled to cores, memory to GiB. -/
def mkNodeIssue (issue : String) (n : Node) (reqCpu reqMem : Int) : NodeIssue :=
  { NodeName := n.name
    Issue := issue
    RequestedCPU := (reqCpu : ℚ) / 1000
    RequestedMemory := (reqMem : ℚ) / (1024 * 1024 * 1024)
    AllocatableCPU := (n.allocCpuMilli : ℚ) / 1000
    AllocatableMemory := (n.allocMemBytes : ℚ) / (1024 * 1024 * 1024) }

/-- Issues emitted by `analyzeNodes` for one node: a "High CPU requests"
issue when the CPU ratio test fires, then independently a "High memory
requests" issue when the memory ratio test fires. -/
def nodeIssuesFor (pods : List Pod) (n : Node) : List NodeIssue :=
  let reqCpu := requestedCpuOn n.name pods
  let reqMem := requestedMemOn n.name pods
  (if ratioExceeds80 reqCpu n.allocCpuMilli then [mkNodeIssue "High CPU requests" n reqCpu reqMem]
   else []) ++
  (if ratioExceeds80 reqMem n.allocMemBytes then [mkNodeIssue "High memory requests" n reqCpu reqMem]
   else [])

/-- `analyzeNodes`. -/
def analyzeNodes (nodes : List Node) (pods : List Pod) : List NodeIssue :=
  nodes.flatMap (nodeIssuesFor pods)

/-- Does an event belong to the OOM stream: its reason or its message
contains "OOMKilled" (`analyzeOOMEvents` filter). -/
def isOOMEvent (e : Event) : Bool :=
  strContains e.reason "OOMKilled" || strContains e.message "OOMKilled"

/-- The `OOMEvent` record built from a matching event. -/
def mkOOMEvent (e : Event) : OOMEvent :=
  { NodeName := e.sourceHost
    PodName := e.involvedName
    Namespace := e.involvedNs
    Container := e.involvedFieldPath
    Timestamp := e.lastTimestamp
    Reason := e.reason }

/-- `analyzeOOMEvents`: extract the OOM stream and sort it most recent
first.  Note there is no window filter here: every matching event is kept
whatever its age. -/
def analyzeOOMEvents (events : List Event) : List OOMEvent :=
  goSortByKey OOMEvent.Timestamp ((events.filter isOOMEvent).map mkOOMEvent)

/-- The "application namespace" policy of `analyzeNamespaces`: name of
exactly 3 characters not starting with "kube-". -/
def qualifiesAsAppNamespace (name : String) : Bool :=
  name.length == 3 && !(strStartsWith name "kube-")

/-- The key set of the `nsMap` built by `analyzeNamespaces`: qualifying
namespace names, first occurrence order, duplicates collapsed (a Go map
holds one entry per key). -/
def nsKeys (nss : List NamespaceInfo) : List String :=
  ((nss.map NamespaceInfo.name).filter qualifiesAsAppNamespace).dedup

/-- Pods of the snapshot that sit in the given namespace. -/
def podsInNs (ns : String) (pods : List Pod) : List Pod :=
  pods.filter fun p => p.ns == ns

/-- Does the pod have some container with a non-nil request map holding a
nonzero CPU or memory quantity (`hasRequests` in `analyzeNamespaces`). -/
def podHasRequests (p : Pod) : Bool :=
  p.containers.any fun c =>
    match c.requests with
    | none => false
    | some r => !(r.cpuMilli == 0) || !(r.memBytes == 0)

/-- `hasLimits` analogue of `podHasRequests`. -/
def podHasLimits (p : Pod) : Bool :=
  p.containers.any fun c =>
    match c.limits with
    | none => false
    | some r => !(r.cpuMilli == 0) || !(r.memBytes == 0)

/-- Pods of the namespace counted into `PodsWithoutRequests` (and listed in
`CriticalPods`). -/
def podsWithoutRequestsIn (ns : String) (pods : List Pod) : List Pod :=
  (podsInNs ns pods).filter fun p => !podHasRequests p

/-- Pods of the namespace counted into `PodsWithoutLimits`. -/
def podsWithoutLimitsIn (ns : String) (pods : List Pod) : List Pod :=
  (podsInNs ns pods).filter fun p => !podHasLimits p

/-- The risk level `if`-chain of `analyzeNamespaces`, applied to the gap
percentage `requestGapPercent = podsWithoutRequests/totalPods*100`.  The
float64 comparisons are encoded in exact integer arithmetic: for
`total > 0`, `gapPercent > 75` holds exactly when `75*total <
100*withoutRequests` (see `riskLevelFor_rat`); the `total = 0` branch
mirrors the IEEE quotient (`+Inf` when the numerator is positive, `NaN`
otherwise) though the caller skips such entries. -/
def riskLevelFor (withoutRequests total : Nat) : String :=
  if total = 0 then if 0 < withoutRequests then "critical" else "low"
  else if 75 * total < 100 * withoutRequests then "critical"
  else if 50 * total < 100 * withoutRequests then "high"
  else if 25 * total < 100 * withoutRequests then "medium"
  else "low"

/-- The `NamespaceAnalysis` entry accumulated for one key of `nsMap` after
the pod loop, with the risk level of the second loop filled in. -/
def nsEntryFor (ns : String) (pods : List Pod) : NamespaceAnalysis :=
  { Namespace := ns
    TotalPods := (podsInNs ns pods).length
    PodsWithoutRequests := (podsWithoutRequestsIn ns pods).length
    PodsWithoutLimits := (podsWithoutLimitsIn ns pods).length
    RiskLevel := riskLevelFor (podsWithoutRequestsIn ns pods).length (podsInNs ns pods).length
    CriticalPods := (podsWithoutRequestsIn ns pods).map Pod.name
    Recommendations := [] }

/-- The rank the sort comparator of `analyzeNamespaces` assigns to a risk
level (a Go map lookup, zero for a key not in the literal map). -/
def riskOrder (level : String) : Int :=
  if level == "critical" then 0
  else if level == "high" then 1
  else if level == "medium" then 2
  else if level == "low" then 3
  else 0

/-- `analyzeNamespaces`.  `order` is the iteration sequence of the keys of
`nsMap` in the result loop: Go leaves it unspecified, so it is an explicit
parameter here; a program run corresponds to some `order` that is a
permutation of `nsKeys nss`.  Entries with zero pods are skipped; the rest
are sorted ascending by risk rank (`riskOrder`), i.e. descending by its
negation. -/
def analyzeNamespaces (pods : List Pod) (nss : List NamespaceInfo) (order : List String) :
    List NamespaceAnalysis :=
  let entries := order.filterMap fun k =>
    if k ∈ nsKeys nss then
      if (nsEntryFor k pods).TotalPods == 0 then none else some (nsEntryFor k pods)
    else none
  goSortByKey (fun e => -(riskOrder e.RiskLevel)) entries

/-- `analyzeRabbitMQ`. -/
def analyzeRabbitMQ (pods : List Pod) : RabbitMQAnalysis :=
  let matched := pods.filter fun p =>
    strContains p.name "rabbitmq" || strContains p.name.toLower "rabbit"
  { RabbitMQPods := matched.map fun p => p.ns ++ "/" ++ p.name
    HasPriorityClass := matched.any fun p => !(p.priorityClassName == "")
    HasResourceLimits := matched.any fun p =>
      p.containers.any fun c =>
        match c.limits with
        | none => false
        | some r => !(r.memBytes == 0)
    Recommendations := [] }

/-- Number of `OwnerReferences` of the pod with kind "Job" (`analyzeJobs`
increments once per matching owner reference). -/
def jobOwnerCount (p : Pod) : Nat := (p.ownerKinds.filter fun k => k == "Job").length

/-- Did the pod complete as a short-lived job: phase "Succeeded", a start
time, and some terminated container that finished less than two minutes
after the pod start. -/
def isShortJobPod (p : Pod) : Bool :=
  p.phase == "Succeeded" &&
    match p.startTime with
    | none => false
    | some st =>
      p.containerStatuses.any fun cs =>
        match cs.stateTerminated with
        | some t => decide (t.finishedAt - st < 2 * nsPerMinute)
        | none => false

/-- Sum of a list of naturals. -/
def sumNat (l : List Nat) : Nat := l.foldl (· + ·) 0

/-- `analyzeJobs`. -/
def analyzeJobs (pods : List Pod) : JobAnalysis :=
  { TotalJobs := sumNat (pods.map jobOwnerCount)
    ShortJobs := sumNat (pods.map fun p => if isShortJobPod p then jobOwnerCount p else 0)
    ImpactOnStability := ""
    Recommendations := [] }

/-- Best-effort last-restart time and reason for one container status
(`analyzePodRestarts`): last-termination state, else current terminated
state, else the pod start time (the Go zero time when that is absent) with
reason "Unknown". -/
def restartEvidence (p : Pod) (cs : ContainerStatus) : Time × String :=
  match cs.lastTermination with
  | some t => (t.finishedAt, if t.reason == "" then "Unknown" else t.reason)
  | none =>
    match cs.stateTerminated with
    | some t => (t.finishedAt, if t.reason == "" then "Unknown" else t.reason)
    | none => (p.startTime.getD 0, "Unknown")

/-- The `PodRestart` record built for one container status. -/
def mkRestart (p : Pod) (cs : ContainerStatus) : PodRestart :=
  { Namespace := p.ns
    PodName := p.name
    ContainerName := cs.name
    RestartCount := cs.restartCount
    LastRestartTime := (restartEvidence p cs).1
    Reason := (restartEvidence p cs).2 }

/-- All restart records: one per container status with a positive restart
count, in pod/status order. -/
def restartPool (pods : List Pod) : List PodRestart :=
  pods.flatMap fun p =>
    (p.containerStatuses.filter fun cs => decide (0 < cs.restartCount)).map (mkRestart p)

/-- The window test of `analyzePodRestarts`: a non-zero time strictly after
`now - w`. -/
def inWindow (now : Time) (w : Int) (t : Time) : Bool :=
  !(t == 0) && decide (now - w < t)

/-- Count of distinct `namespace/pod` keys in a restart list. -/
def uniquePodCount (l : List PodRestart) : Nat :=
  ((l.map fun r => r.Namespace ++ "/" ++ r.PodName).dedup).length

/-- `analyzePodRestarts`; `now` is the `time.Now()` reading taken on entry.
There are exactly two windows (24 hours, 7 days), each sorted descending by
restart count. -/
def analyzePodRestarts (now : Time) (pods : List Pod) : PodRestartAnalysis :=
  let pool := restartPool pods
  let l24 := goSortByKey PodRestart.RestartCount
    (pool.filter fun r => inWindow now hour24 r.LastRestartTime)
  let l7 := goSortByKey PodRestart.RestartCount
    (pool.filter fun r => inWindow now day7 r.LastRestartTime)
  { Last24Hours := l24
    Last7Days := l7
    TotalPods24h := uniquePodCount l24
    TotalPods7d := uniquePodCount l7 }

/-- Fail-soft parse of one backup object (`analyzeVeleroBackups` loop head):
drop it when the `status` map is absent or `startTimestamp` does not parse;
`completionTimestamp` defaults to the zero time and the duration stays zero
while completion is missing. -/
def parseBackup (b : BackupObj) : Option VeleroBackup :=
  if !b.hasStatus then none
  else
    match b.startTimestamp with
    | none => none
    | some st =>
      let ct := b.completionTimestamp.getD 0
      some
        { Name := b.name
          Namespace := b.ns
          Status := b.phase
          StartTime := st
          CompletionTime := ct
          Duration := if ct == 0 then 0 else ct - st
          Errors := b.errors
          Warnings := b.warnings }

/-- Does a backup phase count as failed (`Failed` or `PartiallyFailed`). -/
def backupFailed (vb : VeleroBackup) : Bool :=
  vb.Status == "Failed" || vb.Status == "PartiallyFailed"

/-- Backup records retained by `analyzeVeleroBackups`: parseable and started
within the last 48 hours. -/
def retainedBackups (now : Time) (backups : List BackupObj) : List VeleroBackup :=
  (backups.filterMap parseBackup).filter fun vb => decide (now - hour48 < vb.StartTime)

/-- `analyzeVeleroBackups`; `now` is the `time.Now()` reading taken on
entry.  The 48h pool is the whole retained set; the 24h pool is its
sub-window; both windows are sorted descending by start time and carry
total/failed counters. -/
def analyzeVeleroBackups (now : Time) (backups : List BackupObj) : VeleroBackupAnalysis :=
  let retained := retainedBackups now backups
  let pool24 := retained.filter fun vb => decide (now - hour24 < vb.StartTime)
  { Last24Hours := goSortByKey VeleroBackup.StartTime pool24
    Last48Hours := goSortByKey VeleroBackup.StartTime retained
    TotalBackups24h := pool24.length
    TotalBackups48h := retained.length
    FailedBackups24h := (pool24.filter backupFailed).length
    FailedBackups48h := (retained.filter backupFailed).length }

/-- `generateHealthSummary`: reads only the critical-issue list and the OOM
list of the `Analysis` value it is handed. -/
def generateHealthSummary (a : Analysis) : String :=
  let criticalCount := (a.CriticalIssues.filter fun i => decide (i.Priority ≤ 2)).length
  if 3 < criticalCount || 10 < a.OOMEvents.length then "critical"
  else if 0 < criticalCount || 0 < a.OOMEvents.length then "degraded"
  else "healthy"

/-- Decimal rendering of an instant, standing in for the RFC3339 rendering
in example strings (the rendered text is not read by any claim). -/
def timeRender (t : Time) : String := toString t

/-- Decimal rendering of a percentage, standing in for the `%.1f` rendering
in example strings. -/
def pctRender (q : ℚ) : String := toString q

/-- `generateCriticalIssues`: the fixed priority-1/2/3 synthesis with up to
three first-N examples per issue. -/
def generateCriticalIssues (a : Analysis) : List CriticalIssue :=
  (if 0 < a.ResourceGaps.length then
    [{ Priority := 1
       Title := "Missing Resource Requests and Limits"
       Description := toString a.ResourceGaps.length ++
         " containers are missing resource requests or limits"
       Impact := "Prevents proper scheduling, impacts Velero backups, and can cause cluster instability"
       Recommendation := "Set resource requests and limits for all containers based on observed usage patterns"
       Examples := (a.ResourceGaps.take 3).map fun g =>
         g.Namespace ++ "/" ++ g.PodName ++ " (container: " ++ g.Container ++ ")" }]
   else []) ++
  (if 0 < a.OOMEvents.length then
    [{ Priority := 2
       Title := "OOMKilled Events Detected"
       Description := toString a.OOMEvents.length ++ " OOMKilled events found in recent history"
       Impact := "Workload disruptions, data loss, and degraded application performance"
       Recommendation := "Increase memory limits for affected pods or optimize application memory usage"
       Examples := (a.OOMEvents.take 3).map fun e =>
         e.Namespace ++ "/" ++ e.PodName ++ " at " ++ timeRender e.Timestamp }]
   else []) ++
  (if 0 < a.NodeIssues.length then
    [{ Priority := 3
       Title := "High Node Resource Utilization"
       Description := toString a.NodeIssues.length ++ " nodes showing high resource utilization"
       Impact := "Limited scheduling capacity, potential cascading failures during node issues"
       Recommendation := "Scale node pool or rebalance workloads across nodes"
       Examples := (a.NodeIssues.take 3).map fun i =>
         i.NodeName ++ ": " ++ i.Issue ++ " (" ++
           pctRender (i.RequestedCPU / i.AllocatableCPU * 100) ++ "% utilized)" }]
   else [])

/-- `AnalyzeCluster` (the `src/analyzer.go` pipeline): run the detectors,
then derive `ClusterHealth` from the partial `Analysis`, then synthesize
`CriticalIssues`.  Note the order: when `generateHealthSummary` runs, the
`CriticalIssues` field is still the empty slice of `&Analysis{}`. -/
def AnalyzeCluster (order : List String) (d : ClusterData) : Analysis :=
  let base : Analysis :=
    { ClusterHealth := ""
      CriticalIssues := []
      ResourceGaps := analyzeResourceGaps d.pods
      NodeIssues := analyzeNodes d.nodes d.pods
      OOMEvents := analyzeOOMEvents d.events
      NamespaceFindings := analyzeNamespaces d.pods d.namespaces order
      RabbitMQFindings := analyzeRabbitMQ d.pods
      ShortLivedJobs := analyzeJobs d.pods }
  let health := generateHealthSummary base
  let issues := generateCriticalIssues { base with ClusterHealth := health }
  { base with ClusterHealth := health, CriticalIssues := issues }

/-! Concrete snapshot fixtures used by the boundary and counterexample
theorems below.  Times are instants relative to a capture instant `0`. -/

/-- A container with nil request and limit maps. -/
def bareContainer : Container := { name := "c1", requests := none, limits := none }

/-- A pod whose single container has neither requests nor limits. -/
def barePod : Pod :=
  { ns := "app", name := "p1", nodeName := "", containers := [bareContainer]
    containerStatuses := [], startTime := none, phase := "Running"
    priorityClassName := "", ownerKinds := [] }

/-- A snapshot with one unconfigured pod and nothing else. -/
def snapshotGapOnly : ClusterData :=
  { pods := [barePod], nodes := [], events := [], namespaces := [] }

/-- A node reporting zero allocatable CPU. -/
def nodeZeroCpu : Node := { name := "n1", allocCpuMilli := 0, allocMemBytes := 4000000000 }

/-- A container requesting 100 millicores. -/
def cpuContainer : Container :=
  { name := "c", requests := some { cpuMilli := 100, memBytes := 0 }, limits := none }

/-- A pod scheduled on `nodeZeroCpu` requesting 100 millicores. -/
def podOnZeroCpuNode : Pod :=
  { ns := "abc", name := "pn", nodeName := "n1", containers := [cpuContainer]
    containerStatuses := [], startTime := none, phase := "Running"
    priorityClassName := "", ownerKinds := [] }

/-- A pod without requests living in the given namespace. -/
def gapPodIn (ns nm : String) : Pod :=
  { ns := ns, name := nm, nodeName := "", containers := [bareContainer]
    containerStatuses := [], startTime := none, phase := "Running"
    priorityClassName := "", ownerKinds := [] }

/-- Two qualifying application namespaces. -/
def twoAppNamespaces : List NamespaceInfo := [{ name := "abc" }, { name := "def" }]

/-- A container status with one restart and no terminated state on record. -/
def restartNoEvidence : ContainerStatus :=
  { name := "c4", restartCount := 1, lastTermination := none, stateTerminated := none }

/-- A pod started an hour before capture whose container restarted once with
no terminated-state evidence. -/
def podRestartFallback : Pod :=
  { ns := "abc", name := "p4", nodeName := "", containers := []
    containerStatuses := [restartNoEvidence], startTime := some (-nsPerHour)
    phase := "Running", priorityClassName := "", ownerKinds := [] }

/-- A container status restarted once, terminated one hour before capture. -/
def csOneRecent : ContainerStatus :=
  { name := "ca", restartCount := 1
    lastTermination := some { finishedAt := -nsPerHour, reason := "OOMKilled" }
    stateTerminated := none }

/-- A container status restarted five times, terminated three hours before
capture. -/
def csFiveOld : ContainerStatus :=
  { name := "cb", restartCount := 5
    lastTermination := some { finishedAt := -3 * nsPerHour, reason := "Error" }
    stateTerminated := none }

/-- Pod carrying `csOneRecent`. -/
def podOneRecent : Pod :=
  { ns := "abc", name := "pa", nodeName := "", containers := []
    containerStatuses := [csOneRecent], startTime := none, phase := "Running"
    priorityClassName := "", ownerKinds := [] }

/-- Pod carrying `csFiveOld`. -/
def podFiveOld : Pod :=
  { ns := "abc", name := "pb", nodeName := "", containers := []
    containerStatuses := [csFiveOld], startTime := none, phase := "Running"
    priorityClassName := "", ownerKinds := [] }

/-- An OOMKilled event last seen 100 hours before capture. -/
def staleOOMEvent : Event :=
  { typ := "Warning", reason := "OOMKilled", message := "container killed", ns := "abc"
    sourceComponent := "kubelet", sourceHost := "n1", involvedKind := "Pod"
    involvedName := "p5", involvedNs := "abc", involvedApiVersion := "v1"
    involvedFieldPath := "c5", count := 1
    firstTimestamp := -100 * nsPerHour, lastTimestamp := -100 * nsPerHour }

/-- A failed backup that started two hours before capture. -/
def failedBackupTwoHours : BackupObj :=
  { name := "b1", ns := "velero", hasStatus := true
    startTimestamp := some (-2 * nsPerHour), completionTimestamp := none
    phase := "Failed", errors := 0, warnings := 0 }

/-- The record `analyzeVeleroBackups` builds from `failedBackupTwoHours`. -/
def failedBackupRecord : VeleroBackup :=
  { Name := "b1", Namespace := "velero", Status := "Failed"
    StartTime := -2 * nsPerHour, CompletionTime := 0, Duration := 0
    Errors := 0, Warnings := 0 }

/-- A pod with zero containers in namespace "abc". -/
def containerlessPod : Pod :=
  { ns := "abc", name := "p0", nodeName := "", containers := []
    containerStatuses := [], startTime := none, phase := "Pending"
    priorityClassName := "", ownerKinds := [] }

/-- A pod with a restarted container, no terminated-state evidence, and no
recorded start time. -/
def podRestartNoTime : Pod :=
  { ns := "abc", name := "p9", nodeName := "", containers := []
    containerStatuses := [restartNoEvidence], startTime := none
    phase := "Running", priorityClassName := "", ownerKinds := [] }

/-! Sorting lemmas: `goSort` permutes its input and leaves it pairwise
non-increasing for the comparator's key. -/

theorem goInsert_perm (lt : α → α → Bool) (a : α) (l : List α) :
    (goInsert lt a l).Perm (a :: l) := by
  induction l with
  | nil => simp [goInsert]
  | cons b t ih =>
    by_cases h : lt a b = true
    · simp [goInsert, h]
    · simp only [goInsert, h, if_false, Bool.false_eq_true, ite_false]
      exact (ih.cons b).trans (List.Perm.swap a b t)

theorem goSortAux_perm (lt : α → α → Bool) (l acc : List α) :
    (goSortAux lt acc l).Perm (acc ++ l) := by
  induction l generalizing acc with
  | nil => simp [goSortAux]
  | cons x xs ih =>
    refine (ih (goInsert lt x acc)).trans ?_
    refine (((goInsert_perm lt x acc).append_right xs).trans ?_)
    exact List.perm_middle.symm

theorem goSort_perm (lt : α → α → Bool) (l : List α) : (goSort lt l).Perm l := by
  simpa [goSort] using goSortAux_perm lt l []

theorem goSortByKey_perm (key : α → Int) (l : List α) : (goSortByKey key l).Perm l :=
  goSort_perm _ l

theorem goSortByKey_mem (key : α → Int) (l : List α) (a : α) :
    a ∈ goSortByKey key l ↔ a ∈ l :=
  (goSortByKey_perm key l).mem_iff

theorem goInsert_pairwise (lt : α → α → Bool)
    (hA : ∀ x y, lt x y = true → lt y x = false)
    (hT : ∀ x y z, lt x y = true → lt z y = false → lt z x = false)
    (a : α) (l : List α) (h : l.Pairwise fun x y => lt y x = false) :
    (goInsert lt a l).Pairwise fun x y => lt y x = false := by
  induction l with
  | nil => simp [goInsert]
  | cons b t ih =>
    rw [List.pairwise_cons] at h
    obtain ⟨hb, ht⟩ := h
    by_cases hab : lt a b = true
    · simp only [goInsert, hab, ite_true]
      rw [List.pairwise_cons]
      refine ⟨?_, List.pairwise_cons.2 ⟨hb, ht⟩⟩
      intro y hy
      rcases List.mem_cons.1 hy with rfl | hyt
      · exact hA a y hab
      · exact hT a b y hab (hb y hyt)
    · simp only [goInsert, hab, Bool.false_eq_true, ite_false]
      rw [List.pairwise_cons]
      refine ⟨?_, ih ht⟩
      intro y hy
      rcases List.mem_cons.1 ((goInsert_perm lt a t).mem_iff.1 hy) with rfl | hyt
      · exact Bool.not_eq_true _ ▸ hab
      · exact hb y hyt

theorem goSortAux_pairwise (lt : α → α → Bool)
    (hA : ∀ x y, lt x y = true → lt y x = false)
    (hT : ∀ x y z, lt x y = true → lt z y = false → lt z x = false)
    (l acc : List α) (h : acc.Pairwise fun x y => lt y x = false) :
    (goSortAux lt acc l).Pairwise fun x y => lt y x = false := by
  induction l generalizing acc with
  | nil => simpa [goSortAux] using h
  | cons x xs ih => exact ih (goInsert lt x acc) (goInsert_pairwise lt hA hT x acc h)

theorem goSortByKey_sorted (key : α → Int) (l : List α) :
    (goSortByKey key l).Pairwise fun x y => key y ≤ key x := by
  have h :=
    goSortAux_pairwise (fun a b => decide (key b < key a))
      (by
        intro x y hxy
        simp only [decide_eq_true_eq] at hxy
        simpa [decide_eq_false_iff_not] using not_lt.2 hxy.le)
      (by
        intro x y z hxy hzy
        simp only [decide_eq_true_eq] at hxy
        simp only [decide_eq_false_iff_not, not_lt] at hzy ⊢
        exact hzy.trans hxy.le)
      l [] (by simp)
  refine (h.imp ?_)
  intro x y hxy
  simpa [decide_eq_false_iff_not, not_lt] using hxy

/-! Bridge lemmas: the integer encodings of the float64 comparisons agree
with the exact rational value of the compared expressions. -/

theorem ratioExceeds80_pos_rat (req alloc : Int) (h : 0 < alloc) :
    ratioExceeds80 req alloc = true ↔ (80 : ℚ) < (req : ℚ) / (alloc : ℚ) * 100 := by
  have hq : (0 : ℚ) < (alloc : ℚ) := by exact_mod_cast h
  rw [ratioExceeds80, if_pos h, decide_eq_true_eq, div_mul_eq_mul_div, lt_div_iff₀ hq]
  constructor
  · intro hx
    have hx' : ((80 * alloc : Int) : ℚ) < ((100 * req : Int) : ℚ) := by exact_mod_cast hx
    push_cast at hx'
    linarith
  · intro hx
    have hx' : ((80 * alloc : Int) : ℚ) < ((100 * req : Int) : ℚ) := by push_cast; linarith
    exact_mod_cast hx'

theorem gapPercent_gt_iff (c w t : Nat) (h : 0 < t) :
    ((c : ℚ) < (w : ℚ) / (t : ℚ) * 100) ↔ c * t < 100 * w := by
  have hq : (0 : ℚ) < (t : ℚ) := by exact_mod_cast h
  rw [div_mul_eq_mul_div, lt_div_iff₀ hq]
  constructor
  · intro hx
    have hx' : ((c * t : Nat) : ℚ) < ((100 * w : Nat) : ℚ) := by push_cast; linarith
    exact_mod_cast hx'
  · intro hx
    have hx' : ((c * t : Nat) : ℚ) < ((100 * w : Nat) : ℚ) := by exact_mod_cast hx
    push_cast at hx'
    linarith

/-! Membership characterizations of the windowed and filtered outputs. -/

theorem mem_gapsForPod (p : Pod) (g : ResourceGap) :
    g ∈ gapsForPod p ↔
      ∃ c ∈ p.containers,
        (resMissing c.requests || resMissing c.limits) = true ∧ g = mkGap p c := by
  simp only [gapsForPod, List.mem_filterMap, mkGap, Option.ite_none_right_eq_some,
    Option.some.injEq]
  constructor
  · rintro ⟨c, hc, hcond, rfl⟩
    exact ⟨c, hc, hcond, rfl⟩
  · rintro ⟨c, hc, hcond, rfl⟩
    exact ⟨c, hc, hcond, rfl⟩

theorem mem_analyzeResourceGaps (pods : List Pod) (g : ResourceGap) :
    g ∈ analyzeResourceGaps pods ↔
      ∃ p ∈ pods, ∃ c ∈ p.containers,
        (resMissing c.requests || resMissing c.limits) = true ∧ g = mkGap p c := by
  simp only [analyzeResourceGaps, List.mem_flatMap]
  constructor
  · rintro ⟨p, hp, hg⟩
    exact ⟨p, hp, (mem_gapsForPod p g).1 hg⟩
  · rintro ⟨p, hp, hg⟩
    exact ⟨p, hp, (mem_gapsForPod p g).2 hg⟩

theorem mem_restartLast24 (now : Time) (pods : List Pod) (r : PodRestart) :
    r ∈ (analyzePodRestarts now pods).Last24Hours ↔
      r ∈ restartPool pods ∧ inWindow now hour24 r.LastRestartTime = true := by
  simp [analyzePodRestarts, goSortByKey_mem, List.mem_filter]

theorem mem_restartLast7d (now : Time) (pods : List Pod) (r : PodRestart) :
    r ∈ (analyzePodRestarts now pods).Last7Days ↔
      r ∈ restartPool pods ∧ inWindow now day7 r.LastRestartTime = true := by
  simp [analyzePodRestarts, goSortByKey_mem, List.mem_filter]

theorem mem_veleroLast24 (now : Time) (backups : List BackupObj) (vb : VeleroBackup) :
    vb ∈ (analyzeVeleroBackups now backups).Last24Hours ↔
      vb ∈ retainedBackups now backups ∧ now - hour24 < vb.StartTime := by
  simp [analyzeVeleroBackups, goSortByKey_mem, List.mem_filter]

theorem mem_veleroLast48 (now : Time) (backups : List BackupObj) (vb : VeleroBackup) :
    vb ∈ (analyzeVeleroBackups now backups).Last48Hours ↔
      vb ∈ retainedBackups now backups := by
  simp [analyzeVeleroBackups, goSortByKey_mem]

theorem mem_analyzeNamespaces (pods : List Pod) (nss : List NamespaceInfo)
    (order : List String) (e : NamespaceAnalysis) :
    e ∈ analyzeNamespaces pods nss order ↔
      ∃ k ∈ order, k ∈ nsKeys nss ∧ (nsEntryFor k pods).TotalPods ≠ 0 ∧
        e = nsEntryFor k pods := by
  simp only [analyzeNamespaces, goSortByKey_mem, List.mem_filterMap]
  constructor
  · rintro ⟨k, hk, hf⟩
    by_cases h1 : k ∈ nsKeys nss
    · rw [if_pos h1] at hf
      by_cases h2 : (nsEntryFor k pods).TotalPods = 0
      · rw [if_pos (by simpa using h2)] at hf
        cases hf
      · rw [if_neg (by simpa using h2)] at hf
        exact ⟨k, hk, h1, h2, (Option.some.inj hf).symm⟩
    · rw [if_neg h1] at hf
      cases hf
  · rintro ⟨k, hk, h1, h2, rfl⟩
    refine ⟨k, hk, ?_⟩
    rw [if_pos h1, if_neg (by simpa using h2)]

/-! Identity of a container inside the snapshot and inside the gap list. -/

/-- The `(namespace, pod, container)` identity of a gap record. -/
def gapKey (g : ResourceGap) : String × String × String :=
  (g.Namespace, g.PodName, g.Container)

/-- The container identities declared by one pod. -/
def podTriples (p : Pod) : List (String × String × String) :=
  p.containers.map fun c => (p.ns, p.name, c.name)

/-- All container identities of the snapshot, in scan order. -/
def allTriples (pods : List Pod) : List (String × String × String) :=
  pods.flatMap podTriples

theorem filterMap_sublist_of_map (l : List α) (g : α → Option β) (k : α → β)
    (hg : ∀ a b, g a = some b → b = k a) : (l.filterMap g).Sublist (l.map k) := by
  induction l with
  | nil => simp
  | cons a t ih =>
    rw [List.filterMap_cons, List.map_cons]
    cases hga : g a with
    | none => exact ih.cons _
    | some b =>
      rw [hg a b hga]
      exact ih.cons₂ _

theorem gapsForPod_triples_sublist (p : Pod) :
    ((gapsForPod p).map gapKey).Sublist (podTriples p) := by
  rw [gapsForPod, List.map_filterMap, podTriples]
  refine filterMap_sublist_of_map _ _ _ ?_
  intro c b hb
  rw [Option.map_eq_some'] at hb
  obtain ⟨g, hg, rfl⟩ := hb
  by_cases hcond : ((mkGap p c).MissingRequests || (mkGap p c).MissingLimits) = true
  · rw [if_pos hcond] at hg
    cases hg
    rfl
  · rw [if_neg hcond] at hg
    cases hg

theorem analyzeResourceGaps_triples_sublist (pods : List Pod) :
    ((analyzeResourceGaps pods).map gapKey).Sublist (allTriples pods) := by
  induction pods with
  | nil => simp [analyzeResourceGaps, allTriples]
  | cons p ps ih =>
    rw [analyzeResourceGaps, allTriples, List.flatMap_cons, List.flatMap_cons, List.map_append]
    exact (gapsForPod_triples_sublist p).append ih

theorem ratioExceeds80_zero (req : Int) : ratioExceeds80 req 0 = decide (0 < req) := by
  simp [ratioExceeds80]

theorem cpuIssue_in_nodeIssuesFor (pods : List Pod) (n : Node) :
    (∃ i ∈ nodeIssuesFor pods n, i.Issue = "High CPU requests") ↔
      ratioExceeds80 (requestedCpuOn n.name pods) n.allocCpuMilli = true := by
  simp only [nodeIssuesFor]
  by_cases hc : ratioExceeds80 (requestedCpuOn n.name pods) n.allocCpuMilli = true <;>
    by_cases hm : ratioExceeds80 (requestedMemOn n.name pods) n.allocMemBytes = true <;>
      simp [hc, hm, mkNodeIssue]

theorem memIssue_in_nodeIssuesFor (pods : List Pod) (n : Node) :
    (∃ i ∈ nodeIssuesFor pods n, i.Issue = "High memory requests") ↔
      ratioExceeds80 (requestedMemOn n.name pods) n.allocMemBytes = true := by
  simp only [nodeIssuesFor]
  by_cases hc : ratioExceeds80 (requestedCpuOn n.name pods) n.allocCpuMilli = true <;>
    by_cases hm : ratioExceeds80 (requestedMemOn n.name pods) n.allocMemBytes = true <;>
      simp [hc, hm, mkNodeIssue]

/-! The claims. -/

/-- C1: the claim says `ClusterHealth` is "critical" when the count of
priority-≤2 `CriticalIssues` exceeds 3 or OOM events exceed 10, "degraded"
when any priority-≤2 issue or any OOM event exists, else "healthy".  The
pipeline, however, calls `generateHealthSummary` before
`generateCriticalIssues`, so the issue-count term is always taken over the
empty slice.  At `snapshotGapOnly` (one unconfigured pod, no events) the
synthesized findings contain one priority-1 issue and no OOM events, so the
claimed derivation — re-run by applying `generateHealthSummary` to the
finished `Analysis` — yields "degraded", yet the pipeline reports
"healthy". -/
theorem c1_health_ignores_issue_count :
    (AnalyzeCluster [] snapshotGapOnly).ClusterHealth = "healthy" ∧
    ((AnalyzeCluster [] snapshotGapOnly).CriticalIssues.filter
        fun i => decide (i.Priority ≤ 2)).length = 1 ∧
    (AnalyzeCluster [] snapshotGapOnly).OOMEvents = [] ∧
    generateHealthSummary (AnalyzeCluster [] snapshotGapOnly) = "degraded" := by
  decide

/-- C2 counterexample: the claim says a node with zero allocatable CPU never
receives a "High CPU requests" `NodeIssue`.  `analyzeNodes` has no
zero-divisor guard: on `nodeZeroCpu` (allocatable CPU 0) with a pod
requesting 100 millicores, the float quotient is `+Inf`, the `> 80` test
fires, and the issue is emitted. -/
theorem c2_counterexample :
    ((analyzeNodes [nodeZeroCpu] [podOnZeroCpuNode]).map fun i => (i.NodeName, i.Issue)) =
      [("n1", "High CPU requests")] ∧
    nodeZeroCpu.allocCpuMilli = 0 := by
  decide

/-- C2 amended: no guard skips a zero-allocatable dimension.  For a node
with zero allocatable CPU the "High CPU requests" issue is emitted exactly
when the total CPU requested on the node is positive (IEEE quotient `+Inf`
exceeds the 80 threshold; a zero numerator gives `NaN`, which fails it);
likewise for memory. -/
theorem c2_zero_allocatable_amended (pods : List Pod) (n : Node) :
    (n.allocCpuMilli = 0 →
      ((∃ i ∈ nodeIssuesFor pods n, i.Issue = "High CPU requests") ↔
        0 < requestedCpuOn n.name pods)) ∧
    (n.allocMemBytes = 0 →
      ((∃ i ∈ nodeIssuesFor pods n, i.Issue = "High memory requests") ↔
        0 < requestedMemOn n.name pods)) := by
  constructor
  · intro h0
    rw [cpuIssue_in_nodeIssuesFor, h0, ratioExceeds80_zero, decide_eq_true_eq]
  · intro h0
    rw [memIssue_in_nodeIssuesFor, h0, ratioExceeds80_zero, decide_eq_true_eq]

/-- C2 witness: the amended statement instantiated at `nodeZeroCpu` and the
pod requesting 100 millicores on it. -/
theorem c2_witness :
    nodeZeroCpu.allocCpuMilli = 0 ∧
    ((∃ i ∈ nodeIssuesFor [podOnZeroCpuNode] nodeZeroCpu, i.Issue = "High CPU requests") ↔
      0 < requestedCpuOn nodeZeroCpu.name [podOnZeroCpuNode]) :=
  ⟨by decide, (c2_zero_allocatable_amended [podOnZeroCpuNode] nodeZeroCpu).1 (by decide)⟩

/-- C3 counterexample: the claim says the analysis is a deterministic
function of the snapshot alone, independent of map iteration order.  The
result loop of `analyzeNamespaces` iterates a Go map and ties between
equal-risk namespaces keep iteration order, so two runs over the same
snapshot that happen to enumerate the keys in the two different orders
(both shown to be permutations of the key set) produce different finding
lists. -/
theorem c3_counterexample :
    analyzeNamespaces [gapPodIn "abc" "p1", gapPodIn "def" "p2"] twoAppNamespaces
        ["abc", "def"] ≠
      analyzeNamespaces [gapPodIn "abc" "p1", gapPodIn "def" "p2"] twoAppNamespaces
        ["def", "abc"] ∧
    nsKeys twoAppNamespaces = ["abc", "def"] ∧
    (["def", "abc"] : List String).Perm (nsKeys twoAppNamespaces) := by
  refine ⟨by decide, by decide, ?_⟩
  rw [(by decide : nsKeys twoAppNamespaces = ["abc", "def"])]
  exact List.Perm.swap "abc" "def" []

/-- C3 amended: the engine is deterministic given the snapshot, the clock
reading and the map iteration order; across iteration orders the namespace
findings agree up to a permutation (same multiset of entries, order of
equal-risk namespaces unpinned). -/
theorem c3_deterministic_up_to_order (pods : List Pod) (nss : List NamespaceInfo)
    (ord1 ord2 : List String) (h : ord1.Perm ord2) :
    (analyzeNamespaces pods nss ord1).Perm (analyzeNamespaces pods nss ord2) := by
  simp only [analyzeNamespaces]
  refine ((goSortByKey_perm _ _).trans ?_).trans (goSortByKey_perm _ _).symm
  exact h.filterMap _

/-- C3 witness: the amended statement at the two concrete iteration
orders. -/
theorem c3_witness :
    (analyzeNamespaces [gapPodIn "abc" "p1", gapPodIn "def" "p2"] twoAppNamespaces
        ["abc", "def"]).Perm
      (analyzeNamespaces [gapPodIn "abc" "p1", gapPodIn "def" "p2"] twoAppNamespaces
        ["def", "abc"]) :=
  c3_deterministic_up_to_order _ _ _ _ (List.Perm.swap "def" "abc" [])

/-- C4 counterexample: the claim says a restart record without
termination-state evidence is excluded from every time window.  The code
falls back to the pod start time: for `podRestartFallback` (started one
hour before capture) the "Unknown" record lands in both the 24-hour and
the 7-day window.  (The restart analysis also has no 48-hour window at
all, only 24h and 7d.) -/
theorem c4_counterexample :
    ((analyzePodRestarts 0 [podRestartFallback]).Last24Hours.map
        fun r => (r.Reason, r.RestartCount, r.LastRestartTime)) =
      [("Unknown", 1, -nsPerHour)] ∧
    ((analyzePodRestarts 0 [podRestartFallback]).Last7Days.map fun r => r.Reason) =
      ["Unknown"] := by
  decide

/-- C4 amended: for a restarted container with neither terminated state the
record gets reason "Unknown" and, as its time, the pod start time — the
zero time only when that is also absent; only then is it excluded from
both windows the analyzer has (24 hours and 7 days; there is no 48-hour
restart window). -/
theorem c4_no_evidence_amended (now : Time) (pods : List Pod) (p : Pod)
    (cs : ContainerStatus) (hp : p ∈ pods) (hcs : cs ∈ p.containerStatuses)
    (hrc : 0 < cs.restartCount) (h1 : cs.lastTermination = none)
    (h2 : cs.stateTerminated = none) (h3 : p.startTime = none) :
    (mkRestart p cs).Reason = "Unknown" ∧
    (mkRestart p cs).LastRestartTime = 0 ∧
    mkRestart p cs ∈ restartPool pods ∧
    mkRestart p cs ∉ (analyzePodRestarts now pods).Last24Hours ∧
    mkRestart p cs ∉ (analyzePodRestarts now pods).Last7Days := by
  have hev : restartEvidence p cs = (0, "Unknown") := by
    simp [restartEvidence, h1, h2, h3]
  refine ⟨by simp [mkRestart, hev], by simp [mkRestart, hev], ?_, ?_, ?_⟩
  · rw [restartPool, List.mem_flatMap]
    exact ⟨p, hp, List.mem_map_of_mem _ (List.mem_filter.2 ⟨hcs, by simpa using hrc⟩)⟩
  · intro hmem
    have hw := ((mem_restartLast24 now pods _).1 hmem).2
    simp [inWindow, mkRestart, hev] at hw
  · intro hmem
    have hw := ((mem_restartLast7d now pods _).1 hmem).2
    simp [inWindow, mkRestart, hev] at hw

/-- C4 witness: the amended statement at a pod with no start time. -/
theorem c4_witness :
    (mkRestart podRestartNoTime restartNoEvidence).Reason = "Unknown" ∧
    mkRestart podRestartNoTime restartNoEvidence ∉
      (analyzePodRestarts 0 [podRestartNoTime]).Last24Hours := by
  have h :=
    c4_no_evidence_amended 0 [podRestartNoTime] podRestartNoTime restartNoEvidence
      (by decide) (by decide) (by decide) (by decide) (by decide) (by decide)
  exact ⟨h.1, h.2.2.2.1⟩

/-- C5 counterexample: the claim says no OOM record whose timestamp is more
than 48 hours before the capture instant appears in the reported output.
The OOM stream is not windowed at all: with the capture instant at 0, the
event last seen 100 hours earlier is reported. -/
theorem c5_counterexample :
    ((analyzeOOMEvents [staleOOMEvent]).map fun o => o.Timestamp) = [-100 * nsPerHour] ∧
    (-100 * nsPerHour : Int) < 0 - hour48 := by
  decide

/-- C5 amended: membership in the OOM stream is exactly "derived from some
snapshot event whose reason or message contains OOMKilled" — with no age
restriction whatsoever (the 24h/48h windowing belongs to the Flux and
non-Flux event streams, not to the OOM stream). -/
theorem c5_oom_membership_amended (events : List Event) (o : OOMEvent) :
    o ∈ analyzeOOMEvents events ↔
      ∃ e ∈ events, isOOMEvent e = true ∧ o = mkOOMEvent e := by
  simp only [analyzeOOMEvents, goSortByKey_mem, List.mem_map, List.mem_filter]
  constructor
  · rintro ⟨e, ⟨he, hoom⟩, rfl⟩
    exact ⟨e, he, hoom, rfl⟩
  · rintro ⟨e, he, hoom, rfl⟩
    exact ⟨e, ⟨he, hoom⟩, rfl⟩

/-- C6: for a namespace with pods, the risk tier is the claimed step
function of the gap percentage `podsWithoutRequests/totalPods*100` with
strict thresholds at 75/50/25, and in particular a percentage of exactly 75
gives "high" while exactly 76 gives "critical".  (`nsEntryFor` assigns
`RiskLevel` by `riskLevelFor` applied to exactly these counts, see
`nsEntryFor`.) -/
theorem c6_risk_tier_step (w t : Nat) (ht : 0 < t) :
    (riskLevelFor w t = "critical" ↔ (75 : ℚ) < (w : ℚ) / (t : ℚ) * 100) ∧
    (riskLevelFor w t = "high" ↔
      (50 : ℚ) < (w : ℚ) / (t : ℚ) * 100 ∧ (w : ℚ) / (t : ℚ) * 100 ≤ 75) ∧
    (riskLevelFor w t = "medium" ↔
      (25 : ℚ) < (w : ℚ) / (t : ℚ) * 100 ∧ (w : ℚ) / (t : ℚ) * 100 ≤ 50) ∧
    (riskLevelFor w t = "low" ↔ (w : ℚ) / (t : ℚ) * 100 ≤ 25) ∧
    ((w : ℚ) / (t : ℚ) * 100 = 75 → riskLevelFor w t = "high") ∧
    ((w : ℚ) / (t : ℚ) * 100 = 76 → riskLevelFor w t = "critical") := by
  have ht0 : ¬ t = 0 := Nat.pos_iff_ne_zero.1 ht
  have hc75 : (75 : ℚ) < (w : ℚ) / (t : ℚ) * 100 ↔ 75 * t < 100 * w := by
    have h := gapPercent_gt_iff 75 w t ht
    push_cast at h
    exact h
  have hc50 : (50 : ℚ) < (w : ℚ) / (t : ℚ) * 100 ↔ 50 * t < 100 * w := by
    have h := gapPercent_gt_iff 50 w t ht
    push_cast at h
    exact h
  have hc25 : (25 : ℚ) < (w : ℚ) / (t : ℚ) * 100 ↔ 25 * t < 100 * w := by
    have h := gapPercent_gt_iff 25 w t ht
    push_cast at h
    exact h
  refine ⟨?_, ?_, ?_, ?_, ?_, ?_⟩
  · by_cases A : 75 * t < 100 * w
    · refine iff_of_true ?_ (hc75.mpr A)
      simp only [riskLevelFor]
      rw [if_neg ht0, if_pos A]
    · refine iff_of_false ?_ (fun h => A (hc75.mp h))
      simp only [riskLevelFor]
      rw [if_neg ht0, if_neg A]
      split_ifs <;> decide
  · by_cases A : 75 * t < 100 * w
    · refine iff_of_false ?_ ?_
      · simp only [riskLevelFor]
        rw [if_neg ht0, if_pos A]
        decide
      · rintro ⟨-, hle⟩
        exact absurd (hc75.mpr A) (not_lt.2 hle)
    · by_cases B : 50 * t < 100 * w
      · refine iff_of_true ?_ ⟨hc50.mpr B, not_lt.mp fun h => A (hc75.mp h)⟩
        simp only [riskLevelFor]
        rw [if_neg ht0, if_neg A, if_pos B]
      · refine iff_of_false ?_ ?_
        · simp only [riskLevelFor]
          rw [if_neg ht0, if_neg A, if_neg B]
          split_ifs <;> decide
        · rintro ⟨hgt, -⟩
          exact B (hc50.mp hgt)
  · by_cases A : 75 * t < 100 * w
    · refine iff_of_false ?_ ?_
      · simp only [riskLevelFor]
        rw [if_neg ht0, if_pos A]
        decide
      · rintro ⟨-, hle⟩
        have := hc75.mpr A
        linarith
    · by_cases B : 50 * t < 100 * w
      · refine iff_of_false ?_ ?_
        · simp only [riskLevelFor]
          rw [if_neg ht0, if_neg A, if_pos B]
          decide
        · rintro ⟨-, hle⟩
          exact absurd (hc50.mpr B) (not_lt.2 hle)
      · by_cases C : 25 * t < 100 * w
        · refine iff_of_true ?_ ⟨hc25.mpr C, not_lt.mp fun h => B (hc50.mp h)⟩
          simp only [riskLevelFor]
          rw [if_neg ht0, if_neg A, if_neg B, if_pos C]
        · refine iff_of_false ?_ ?_
          · simp only [riskLevelFor]
            rw [if_neg ht0, if_neg A, if_neg B, if_neg C]
            decide
          · rintro ⟨hgt, -⟩
            exact C (hc25.mp hgt)
  · by_cases A : 75 * t < 100 * w
    · refine iff_of_false ?_ ?_
      · simp only [riskLevelFor]
        rw [if_neg ht0, if_pos A]
        decide
      · intro hle
        have := hc75.mpr A
        linarith
    · by_cases B : 50 * t < 100 * w
      · refine iff_of_false ?_ ?_
        · simp only [riskLevelFor]
          rw [if_neg ht0, if_neg A, if_pos B]
          decide
        · intro hle
          have := hc50.mpr B
          linarith
      · by_cases C : 25 * t < 100 * w
        · refine iff_of_false ?_ fun hle => absurd (hc25.mpr C) (not_lt.2 hle)
          simp only [riskLevelFor]
          rw [if_neg ht0, if_neg A, if_neg B, if_pos C]
          decide
        · refine iff_of_true ?_ (not_lt.mp fun h => C (hc25.mp h))
          simp only [riskLevelFor]
          rw [if_neg ht0, if_neg A, if_neg B, if_neg C]
  · intro hEq
    have hnA : ¬ 75 * t < 100 * w := by
      rw [← hc75, hEq]
      exact lt_irrefl _
    have hB : 50 * t < 100 * w := by
      rw [← hc50, hEq]
      norm_num
    simp only [riskLevelFor]
    rw [if_neg ht0, if_neg hnA, if_pos hB]
  · intro hEq
    have hA : 75 * t < 100 * w := by
      rw [← hc75, hEq]
      norm_num
    simp only [riskLevelFor]
    rw [if_neg ht0, if_pos hA]

/-- C6 witness: the step function instantiated at 3/4 of the pods lacking
requests (gap percentage exactly 75). -/
theorem c6_witness :
    (0 : Nat) < 4 ∧
    ((riskLevelFor 3 4 = "critical" ↔ (75 : ℚ) < (3 : ℚ) / (4 : ℚ) * 100) ∧
     (riskLevelFor 3 4 = "high" ↔
       (50 : ℚ) < (3 : ℚ) / (4 : ℚ) * 100 ∧ (3 : ℚ) / (4 : ℚ) * 100 ≤ 75) ∧
     (riskLevelFor 3 4 = "medium" ↔
       (25 : ℚ) < (3 : ℚ) / (4 : ℚ) * 100 ∧ (3 : ℚ) / (4 : ℚ) * 100 ≤ 50) ∧
     (riskLevelFor 3 4 = "low" ↔ (3 : ℚ) / (4 : ℚ) * 100 ≤ 25) ∧
     ((3 : ℚ) / (4 : ℚ) * 100 = 75 → riskLevelFor 3 4 = "high") ∧
     ((3 : ℚ) / (4 : ℚ) * 100 = 76 → riskLevelFor 3 4 = "critical")) := by
  refine ⟨by decide, ?_⟩
  have h := c6_risk_tier_step 3 4 (by decide)
  push_cast at h
  exact h

/-- C7 counterexample: the claim says restart window lists are sorted
descending by their governing timestamp.  They are sorted by restart count:
with a 1-restart record from one hour ago and a 5-restart record from three
hours ago, the 24h list puts the three-hour-old record first. -/
theorem c7_counterexample :
    ((analyzePodRestarts 0 [podOneRecent, podFiveOld]).Last24Hours.map
        fun r => (r.RestartCount, r.LastRestartTime)) =
      [(5, -3 * nsPerHour), (1, -nsPerHour)] ∧
    (-3 * nsPerHour : Int) < -nsPerHour := by
  decide

/-- C7 amended: the OOM list is sorted descending by timestamp and the
backup window lists descending by start time, but the restart window lists
are sorted descending by restart count, not by timestamp. -/
theorem c7_sorted_amended :
    (∀ events : List Event,
      (analyzeOOMEvents events).Pairwise fun x y => y.Timestamp ≤ x.Timestamp) ∧
    (∀ (now : Time) (backups : List BackupObj),
      ((analyzeVeleroBackups now backups).Last24Hours.Pairwise fun x y =>
        y.StartTime ≤ x.StartTime) ∧
      ((analyzeVeleroBackups now backups).Last48Hours.Pairwise fun x y =>
        y.StartTime ≤ x.StartTime)) ∧
    (∀ (now : Time) (pods : List Pod),
      ((analyzePodRestarts now pods).Last24Hours.Pairwise fun x y =>
        y.RestartCount ≤ x.RestartCount) ∧
      ((analyzePodRestarts now pods).Last7Days.Pairwise fun x y =>
        y.RestartCount ≤ x.RestartCount)) := by
  refine ⟨fun events => ?_, fun now backups => ⟨?_, ?_⟩, fun now pods => ⟨?_, ?_⟩⟩ <;>
    · simp only [analyzeOOMEvents, analyzeVeleroBackups, analyzePodRestarts]
      exact goSortByKey_sorted _ _

/-- C8: membership of a backup record in the 24h window always implies
membership in the 48h window (both are filters of the same retained pool),
and for the snapshot holding exactly one backup with phase "Failed" started
two hours before capture, the record appears in both window lists and both
failure counters are 1. -/
theorem c8_windows_nested (now : Time) (backups : List BackupObj) (b : VeleroBackup)
    (hb : b ∈ (analyzeVeleroBackups now backups).Last24Hours) :
    b ∈ (analyzeVeleroBackups now backups).Last48Hours ∧
    ((analyzeVeleroBackups 0 [failedBackupTwoHours]).Last24Hours = [failedBackupRecord] ∧
     (analyzeVeleroBackups 0 [failedBackupTwoHours]).Last48Hours = [failedBackupRecord] ∧
     (analyzeVeleroBackups 0 [failedBackupTwoHours]).FailedBackups24h = 1 ∧
     (analyzeVeleroBackups 0 [failedBackupTwoHours]).FailedBackups48h = 1) := by
  refine ⟨?_, by decide⟩
  exact (mem_veleroLast48 now backups b).2 ((mem_veleroLast24 now backups b).1 hb).1

/-- C8 witness: the implication applied to the concrete failed backup. -/
theorem c8_witness :
    failedBackupRecord ∈ (analyzeVeleroBackups 0 [failedBackupTwoHours]).Last48Hours :=
  (c8_windows_nested 0 [failedBackupTwoHours] failedBackupRecord (by decide)).1

/-- C9: a container's gap flags are exactly "map absent or both quantities
zero" for requests and for limits, a `ResourceGap` is emitted exactly when
at least one flag holds, and — provided the snapshot's
`(namespace, pod, container)` identities are distinct, as the orchestration
guarantees — each container occurs in the gap list at most once. -/
theorem c9_gap_characterization (pods : List Pod) (g : ResourceGap) (p : Pod)
    (c : Container) (hnd : (allTriples pods).Nodup) :
    (g ∈ analyzeResourceGaps pods ↔
      ∃ q ∈ pods, ∃ d ∈ q.containers,
        (resMissing d.requests || resMissing d.limits) = true ∧ g = mkGap q d) ∧
    ((mkGap p c).MissingRequests = true ↔
      c.requests = none ∨ ∃ r, c.requests = some r ∧ r.cpuMilli = 0 ∧ r.memBytes = 0) ∧
    ((mkGap p c).MissingLimits = true ↔
      c.limits = none ∨ ∃ r, c.limits = some r ∧ r.cpuMilli = 0 ∧ r.memBytes = 0) ∧
    ((analyzeResourceGaps pods).map gapKey).Nodup := by
  refine ⟨mem_analyzeResourceGaps pods g, ?_, ?_, ?_⟩
  · show resMissing c.requests = true ↔ _
    cases hr : c.requests with
    | none => simp [resMissing]
    | some r => simp [resMissing]
  · show resMissing c.limits = true ↔ _
    cases hr : c.limits with
    | none => simp [resMissing]
    | some r => simp [resMissing]
  · exact List.Nodup.sublist (analyzeResourceGaps_triples_sublist pods) hnd

/-- C9 witness: the characterization at the one-pod snapshot whose single
container sets both flags. -/
theorem c9_witness :
    (allTriples [barePod]).Nodup ∧
    ((analyzeResourceGaps [barePod]).map gapKey).Nodup ∧
    ((mkGap barePod bareContainer).MissingRequests = true ↔
      bareContainer.requests = none ∨
        ∃ r, bareContainer.requests = some r ∧ r.cpuMilli = 0 ∧ r.memBytes = 0) := by
  have h := c9_gap_characterization [barePod] (mkGap barePod bareContainer) barePod
    bareContainer (by decide)
  exact ⟨by decide, h.2.2.2, h.2.1⟩

/-- C10: a pod declaring zero containers has neither a "non-zero request"
nor a "non-zero limit" container, so a qualifying namespace counts it into
both `PodsWithoutRequests` and `PodsWithoutLimits` (driving the gap
percentage up), while the gap detector emits no `ResourceGap` for it. -/
theorem c10_containerless_pod (pods : List Pod) (nss : List NamespaceInfo)
    (order : List String) (p : Pod) (hp : p ∈ pods) (hc : p.containers = [])
    (hk : p.ns ∈ nsKeys nss) (hord : order.Perm (nsKeys nss)) :
    podHasRequests p = false ∧ podHasLimits p = false ∧
    p ∈ podsWithoutRequestsIn p.ns pods ∧ p ∈ podsWithoutLimitsIn p.ns pods ∧
    (nsEntryFor p.ns pods).PodsWithoutRequests = (podsWithoutRequestsIn p.ns pods).length ∧
    gapsForPod p = [] ∧
    ∃ e ∈ analyzeNamespaces pods nss order,
      e.Namespace = p.ns ∧ 0 < e.TotalPods ∧ 0 < e.PodsWithoutRequests ∧
        0 < e.PodsWithoutLimits := by
  have hreq : podHasRequests p = false := by simp [podHasRequests, hc]
  have hlim : podHasLimits p = false := by simp [podHasLimits, hc]
  have hin : p ∈ podsInNs p.ns pods := List.mem_filter.2 ⟨hp, by simp⟩
  have hwr : p ∈ podsWithoutRequestsIn p.ns pods :=
    List.mem_filter.2 ⟨hin, by simp [hreq]⟩
  have hwl : p ∈ podsWithoutLimitsIn p.ns pods :=
    List.mem_filter.2 ⟨hin, by simp [hlim]⟩
  have htp : (nsEntryFor p.ns pods).TotalPods ≠ 0 := by
    have hlen : 0 < (podsInNs p.ns pods).length :=
      List.length_pos.2 (List.ne_nil_of_mem hin)
    simpa [nsEntryFor] using Nat.pos_iff_ne_zero.mp hlen
  refine ⟨hreq, hlim, hwr, hwl, rfl, by simp [gapsForPod, hc],
    nsEntryFor p.ns pods, ?_, rfl, ?_, ?_, ?_⟩
  · exact (mem_analyzeNamespaces pods nss order _).2 ⟨p.ns, hord.mem_iff.2 hk, hk, htp, rfl⟩
  · exact Nat.pos_of_ne_zero htp
  · exact List.length_pos.2 (List.ne_nil_of_mem hwr)
  · exact List.length_pos.2 (List.ne_nil_of_mem hwl)

/-- C10 witness: the statement at a snapshot holding one containerless pod
in the qualifying namespace "abc". -/
theorem c10_witness :
    gapsForPod containerlessPod = [] ∧
    ∃ e ∈ analyzeNamespaces [containerlessPod] [{ name := "abc" }] ["abc"],
      e.Namespace = containerlessPod.ns ∧ 0 < e.TotalPods ∧
        0 < e.PodsWithoutRequests ∧ 0 < e.PodsWithoutLimits := by
  have h := c10_containerless_pod [containerlessPod] [{ name := "abc" }] ["abc"]
    containerlessPod (by decide) (by decide) (by decide)
    (by rw [(by decide : nsKeys [{ name := "abc" }] = ["abc"])])
  exact ⟨h.2.2.2.2.2.1, h.2.2.2.2.2.2⟩

end K8sRA

